/-
Verification development for the xcube web API service context and the
spatial resampling subsystem.  The functions of xcube/webapi/context.py are
shallowly embedded as Lean definitions; components whose implementation
lives outside the provided sources (the spatial resampler, the byte-budget
tile cache) are modelled from the specification, as marked in their doc
comments.  Machine integers do not overflow in any embedded routine, so
Nat/Int/Rat are used directly.
-/
import Mathlib

namespace Xcube

/-! ## Strings as character lists

Python strings are modelled as lists of characters, which keeps all string
operations kernel-computable. -/

abbrev Str := List Char

def lbrace : Char := Char.ofNat 123

def rbrace : Char := Char.ofNat 125

def slash : Char := '/'

/-- Python `str.replace(pat, repl)`: replaces all non-overlapping occurrences
of `pat`, scanning left to right.  `skip` counts the characters of an
already-emitted match that remain to be consumed, which keeps the recursion
structural on the string (and hence kernel-reducible). -/
def replaceAux (pat repl : Str) : Nat → Str → Str
  | _, [] => []
  | Nat.succ k, _ :: rest => replaceAux pat repl k rest
  | 0, c :: rest =>
    if pat.isPrefixOf (c :: rest) ∧ pat ≠ [] then
      repl ++ replaceAux pat repl (pat.length - 1) rest
    else
      c :: replaceAux pat repl 0 rest

/-- Python `s.replace(pat, repl)` for a string `s`. -/
def pyreplace (pat repl s : Str) : Str := replaceAux pat repl 0 s

def dollarName : Str := ['$', lbrace, 'n', 'a', 'm', 'e', rbrace]

def dollarVersion : Str := ['$', lbrace, 'v', 'e', 'r', 's', 'i', 'o', 'n', rbrace]

def xcubeName : Str := ['x', 'c', 'u', 'b', 'e']

/-- Shallow embedding of `normalize_prefix` (xcube/webapi/context.py,
lines 966-983).  The value substituted for the version placeholder comes
from `xcube.version.version`, which is outside the provided sources, so it
is passed in as the parameter `version`.  `none` models Python `None`; the
empty list models the empty string (both are falsy in `if not prefix:`). -/
def normalize_prefix (version : Str) (pfx : Option Str) : Str :=
  match pfx with
  | none => []
  | some p =>
    if p = [] then []
    else
      let p1 := pyreplace dollarName xcubeName p
      let p2 := pyreplace dollarVersion version p1
      let p3 := pyreplace [slash, slash] [slash]
        (pyreplace [slash, slash] [slash] p2)
      if p3 = [slash] then []
      else
        let p4 := if p3.head? = some slash then p3 else slash :: p3
        if p4.getLast? = some slash then p4.dropLast else p4

/-! ## Dataset configuration lookup (context.py lines 518-525, 926-931) -/

structure DatasetConfig where
  identifier : String
  deriving DecidableEq, Repr

/-- The error taxonomy of xcube/webapi/errors.py, restricted to the classes
raised by the embedded functions.  `resourceNotFound` embeds
`ServiceResourceNotFoundError` (the "not found" class), `configError` embeds
`ServiceConfigError`, `badRequest` embeds `ServiceBadRequestError`. -/
inductive ServiceError where
  | resourceNotFound : String → ServiceError
  | configError : String → ServiceError
  | badRequest : String → ServiceError
  deriving DecidableEq, Repr

/-- Shallow embedding of `ServiceContext.find_dataset_config`
(context.py lines 926-931): the first configuration whose `Identifier`
equals `ds_name`, else `None`. -/
def find_dataset_config (dataset_configs : List DatasetConfig)
    (ds_name : String) : Option DatasetConfig :=
  dataset_configs.find? (fun dsd => dsd.identifier == ds_name)

/-- Shallow embedding of `ServiceContext.get_dataset_config`
(context.py lines 518-525).  The list of dataset configurations resolved by
`get_dataset_configs` is passed in explicitly. -/
def get_dataset_config (dataset_configs : List DatasetConfig)
    (ds_id : String) : Except ServiceError DatasetConfig :=
  match find_dataset_config dataset_configs ds_id with
  | some dataset_config => Except.ok dataset_config
  | none => Except.error
      (ServiceError.resourceNotFound ("Dataset " ++ ds_id ++ " not found"))

/-! ## Variable lookup in get_dataset (context.py lines 239-246) -/

/-- The base dataset of a resolved MultiLevelDataset, reduced to what
`get_dataset` inspects: the set of its variable names. -/
structure XDataset where
  varNames : List String
  deriving DecidableEq, Repr

/-- The `for var_name in expected_var_names:` loop of `get_dataset`:
the first expected name that is not in the dataset, if any. -/
def firstMissingVar (dataset : XDataset) : List String → Option String
  | [] => none
  | var_name :: rest =>
    if var_name ∈ dataset.varNames then firstMissingVar dataset rest
    else some var_name

/-- Shallow embedding of `ServiceContext.get_dataset`
(context.py lines 239-246) for a known `ds_id`: `dataset` is the base
dataset of the resolved entry.  An empty `expected_var_names` list models
both Python `None` and `[]` (both skip the check). -/
def get_dataset (dataset : XDataset) (ds_id : String)
    (expected_var_names : List String) : Except ServiceError XDataset :=
  match firstMissingVar dataset expected_var_names with
  | some var_name => Except.error
      (ServiceError.resourceNotFound
        ("Variable " ++ var_name ++ " not found in dataset " ++ ds_id))
  | none => Except.ok dataset

/-! ## Store-scan configuration listing (context.py lines 429-478) -/

/-- One entry of a data store configuration's `user_data` (a dataset config
pattern), reduced to the `Path` pattern consulted by the scan loop. -/
structure StoreDatasetConfig where
  pathPattern : Option String
  deriving DecidableEq, Repr

/-- One store instance of the data store pool: its instance id, the data ids
reported by `get_data_ids`, and the `user_data` of its store config. -/
structure DataStoreRecord where
  instanceId : String
  dataIds : List String
  userData : List StoreDatasetConfig
  deriving DecidableEq, Repr

/-- A dataset configuration produced by the store scan. -/
structure DatasetConfigOut where
  storeInstanceId : String
  path : String
  identifier : String
  deriving DecidableEq, Repr

/-- Observable side effects of the embedded functions. -/
inductive Effect where
  | fileWrite : String → Effect
  deriving DecidableEq, Repr

def STORE_DS_ID_SEPARATOR : String := "~"

/-- The inner loop of `get_dataset_configs_from_stores` selecting
`dataset_config_base`: Python starts from `{}` (modelled `some none`), and
each iteration overwrites it with the matching config (`some (some c)`) or
`None` (modelled `none`); the last iteration wins.  `fnm` embeds
`fnmatch.fnmatch`, an external collaborator. -/
def selectConfigBase (fnm : String → String → Bool)
    (store_dataset_configs : List StoreDatasetConfig)
    (store_dataset_id : String) : Option (Option StoreDatasetConfig) :=
  store_dataset_configs.foldl
    (fun _ sdc =>
      if fnm store_dataset_id (sdc.pathPattern.getD "*") then some (some sdc)
      else none)
    (some none)

/-- Shallow embedding of `ServiceContext.get_dataset_configs_from_stores`
(context.py lines 429-478).  Returns the selected dataset configurations
together with the list of file-write side effects performed; the write of
`all_dataset_configs.json` (lines 472-476) happens whenever the data store
pool is present. -/
def get_dataset_configs_from_stores (fnm : String → String → Bool)
    (data_store_pool : Option (List DataStoreRecord)) :
    List DatasetConfigOut × List Effect :=
  match data_store_pool with
  | none => ([], [])
  | some stores =>
    let all_dataset_configs := stores.flatMap (fun st =>
      st.dataIds.filterMap (fun store_dataset_id =>
        match selectConfigBase fnm st.userData store_dataset_id with
        | none => none
        | some _ => some
            { storeInstanceId := st.instanceId,
              path := store_dataset_id,
              identifier :=
                st.instanceId ++ STORE_DS_ID_SEPARATOR ++ store_dataset_id }))
    (all_dataset_configs, [Effect.fileWrite "all_dataset_configs.json"])

/-! ## The spatial resampler (spec-modelled)

`xcube/core/resampling/spatial.py` and `xcube/core/gridmapping` are not
among the provided sources (only `test/core/resampling/test_spatial.py`
is), so the resampler is modelled from the specification, sections 4.1-4.2:
regular grid mappings, integer-factor downscaling by no-data-excluding
arithmetic mean, nearest-neighbor upscaling, and no-data (not zero) outside
the source domain. -/

/-- Modelled from the spec: a regular `GridMapping` value — origin,
resolution and size; the CRS and tile size play no role in the resampling
rules settled here (`xcube/core/gridmapping` is not under the provided
sources).  Cell `(i, j)` covers x in `[xMin + j*xyRes, xMin + (j+1)*xyRes)`
and likewise in y. -/
structure GridMapping where
  xMin : ℚ
  yMin : ℚ
  xyRes : ℚ
  width : Nat
  height : Nat
  deriving DecidableEq, Repr

/-- Modelled from the spec: `GridMapping.regular(size, xy_min, xy_res, crs)`
constructing a synthetic regular grid mapping; the CRS argument is dropped
(all settled claims use the same CRS on both sides). -/
def GridMapping.regular (size : Nat × Nat) (xy_min : ℚ × ℚ)
    (xy_res : ℚ) : GridMapping :=
  { xMin := xy_min.1, yMin := xy_min.2, xyRes := xy_res,
    width := size.1, height := size.2 }

/-- A raster: rows of cells, a cell being a value or no-data (`none`). -/
abbrev Raster := List (List (Option ℚ))

/-- The cell of a raster at row `i`, column `j`; out-of-range access yields
no-data. -/
def cellAt (r : Raster) (i j : Nat) : Option ℚ :=
  match r[i]? with
  | some row => row.getD j none
  | none => none

/-- The `k×k` block of source cells contributing to one output cell of an
integer-factor downscaling, with top-left source cell `(bi, bj)`. -/
def blockCells (src : Raster) (k bi bj : Nat) : List (Option ℚ) :=
  (List.range k).flatMap (fun di =>
    (List.range k).map (fun dj => cellAt src (bi + di) (bj + dj)))

/-- Sum and count of the valid (non-no-data) cells of a block. -/
def sumCount (cells : List (Option ℚ)) : ℚ × Nat :=
  cells.foldl
    (fun acc c =>
      match c with
      | some v => (acc.1 + v, acc.2 + 1)
      | none => acc)
    (0, 0)

/-- Modelled from the spec, section 4.2 rule 3: one output cell of a
downscaling — the arithmetic mean of the contributing source cells with
no-data cells excluded, no-data when all contributing cells are no-data
(`xcube/core/resampling/spatial.py` is not under the provided sources). -/
def downscaleCell (src : Raster) (k bi bj : Nat) : Option ℚ :=
  if (sumCount (blockCells src k bi bj)).2 = 0 then none
  else some ((sumCount (blockCells src k bi bj)).1
    / ((sumCount (blockCells src k bi bj)).2 : ℚ))

/-- The arithmetic mean of the valid cells of a block, no-data if none are
valid; the reference form against which `downscaleCell` is proved. -/
def meanOfValid (cells : List (Option ℚ)) : Option ℚ :=
  if cells.filterMap id = [] then none
  else some ((cells.filterMap id).sum / ((cells.filterMap id).length : ℚ))

/-- The fractional source-cell index of a target cell center along one axis:
target cell `j` has its center at `tMin + (j + 1/2) * tRes`. -/
def sourcePos (sMin res tMin tRes : ℚ) (j : Nat) : ℚ :=
  (tMin + ((j : ℚ) + 1/2) * tRes - sMin) / res

/-- The source-domain membership test for the center of target cell
`(i, j)`: its fractional source-cell indices lie within `[0, width)` and
`[0, height)`. -/
def insideSource (sgm tgm : GridMapping) (i j : Nat) : Prop :=
  0 ≤ sourcePos sgm.xMin sgm.xyRes tgm.xMin tgm.xyRes j
  ∧ sourcePos sgm.xMin sgm.xyRes tgm.xMin tgm.xyRes j < (sgm.width : ℚ)
  ∧ 0 ≤ sourcePos sgm.yMin sgm.xyRes tgm.yMin tgm.xyRes i
  ∧ sourcePos sgm.yMin sgm.xyRes tgm.yMin tgm.xyRes i < (sgm.height : ℚ)

instance (sgm tgm : GridMapping) (i j : Nat) :
    Decidable (insideSource sgm tgm i j) :=
  inferInstanceAs (Decidable (_ ∧ _ ∧ _ ∧ _))

/-- Modelled from the spec, section 4.2 rules 4-5: point sampling of one
output cell — the value of the nearest enclosing source cell (the cell whose
extent contains the output cell center, i.e. the floor of the fractional
source index), and no-data (never zero) when the output cell center falls
outside the source domain (`xcube/core/resampling/spatial.py` is not under
the provided sources). -/
def nearestCell (src : Raster) (sgm tgm : GridMapping) (i j : Nat) :
    Option ℚ :=
  if insideSource sgm tgm i j then
    cellAt src
      (Int.toNat (Int.floor (sourcePos sgm.yMin sgm.xyRes tgm.yMin tgm.xyRes i)))
      (Int.toNat (Int.floor (sourcePos sgm.xMin sgm.xyRes tgm.xMin tgm.xyRes j)))
  else none

/-- Modelled from the spec, section 4.2: `resample_in_space` for regular
source and target grid mappings (`xcube/core/resampling/spatial.py` is not
under the provided sources).  When the target resolution is coarser by an
integer factor and the target origin is aligned to source cell boundaries,
each output cell aggregates its block of contributing source cells by the
no-data-excluding mean (rule 3); otherwise each output cell is point-sampled
from its nearest enclosing source cell, with cells outside the source
domain set to no-data (rules 4-5, and the identity slice of rule 1 when the
resolutions coincide). -/
def resample_in_space (src : Raster) (sgm tgm : GridMapping) : Raster :=
  if 1 < tgm.xyRes / sgm.xyRes ∧ (tgm.xyRes / sgm.xyRes).den = 1
      ∧ ((tgm.xMin - sgm.xMin) / sgm.xyRes).den = 1
      ∧ 0 ≤ ((tgm.xMin - sgm.xMin) / sgm.xyRes).num
      ∧ ((tgm.yMin - sgm.yMin) / sgm.xyRes).den = 1
      ∧ 0 ≤ ((tgm.yMin - sgm.yMin) / sgm.xyRes).num then
    (List.range tgm.height).map (fun i =>
      (List.range tgm.width).map (fun j =>
        downscaleCell src (Int.toNat (tgm.xyRes / sgm.xyRes).num)
          (Int.toNat ((tgm.yMin - sgm.yMin) / sgm.xyRes).num
            + Int.toNat (tgm.xyRes / sgm.xyRes).num * i)
          (Int.toNat ((tgm.xMin - sgm.xMin) / sgm.xyRes).num
            + Int.toNat (tgm.xyRes / sgm.xyRes).num * j)))
  else
    (List.range tgm.height).map (fun i =>
      (List.range tgm.width).map (fun j => nearestCell src sgm tgm i j))

/-! ## The byte-budget tile cache (spec-modelled)

`ServiceContext.__init__` (context.py lines 116-121) constructs
`Cache(MemoryCacheStore(), capacity=tile_cache_capacity, threshold=0.75)`,
but `xcube/util/cache.py` is not among the provided sources, so the cache is
modelled from the specification. -/

/-- Cache entries in recency order, least recently used first; each entry is
a key together with its size in bytes. -/
abbrev CacheEntries := List (String × Nat)

/-- Modelled from the spec: the total byte size of the cached entries,
against which the byte budget is checked (`xcube/util/cache.py` is not under
the provided sources). -/
def totalSize (entries : CacheEntries) : Nat :=
  (entries.map Prod.snd).sum

/-- Modelled from the spec: eviction removes least-recently-used entries
first (the front of the recency list) until the total size is at or below
the eviction threshold of 0.75 of the capacity, i.e. until
`4 * totalSize ≤ 3 * capacity` (`xcube/util/cache.py` is not under the
provided sources). -/
def evictLRU (capacity : Nat) : CacheEntries → CacheEntries
  | [] => []
  | e :: rest =>
    if 4 * totalSize (e :: rest) ≤ 3 * capacity then e :: rest
    else evictLRU capacity rest

/-- Modelled from the spec: inserting a rendered tile into the
capacity-bounded cache marks the key as most recently used and then evicts
down to the threshold (`xcube/util/cache.py` is not under the provided
sources). -/
def cachePut (capacity : Nat) (entries : CacheEntries) (key : String)
    (size : Nat) : CacheEntries :=
  evictLRU capacity
    (entries.filter (fun kv => kv.1 ≠ key) ++ [(key, size)])

/-- A whole sequence of insertions applied to the initially empty cache. -/
def cacheRun (capacity : Nat) (ops : List (String × Nat)) : CacheEntries :=
  ops.foldl (fun es op => cachePut capacity es op.1 op.2) []

theorem evictLRU_le (capacity : Nat) (l : CacheEntries) :
    4 * totalSize (evictLRU capacity l) ≤ 3 * capacity := by
  induction l with
  | nil => simp [evictLRU, totalSize]
  | cons e rest ih =>
    by_cases h : 4 * totalSize (e :: rest) ≤ 3 * capacity
    · rw [evictLRU, if_pos h]; exact h
    · rw [evictLRU, if_neg h]; exact ih

theorem evictLRU_suffix (capacity : Nat) (l : CacheEntries) :
    (evictLRU capacity l).IsSuffix l := by
  induction l with
  | nil => simp [evictLRU]
  | cons e rest ih =>
    by_cases h : 4 * totalSize (e :: rest) ≤ 3 * capacity
    · simp [evictLRU, h]
    · rw [evictLRU, if_neg h]
      exact ih.trans (List.suffix_cons e rest)

theorem cacheRun_le (capacity : Nat) (ops : List (String × Nat))
    (es : CacheEntries) (hes : totalSize es ≤ capacity) :
    totalSize (ops.foldl (fun es2 op => cachePut capacity es2 op.1 op.2) es)
      ≤ capacity := by
  induction ops generalizing es with
  | nil => simp only [List.foldl_nil]; exact hes
  | cons op rest ih =>
    simp only [List.foldl_cons]
    apply ih
    have h := evictLRU_le capacity
      (es.filter (fun kv => kv.1 ≠ op.1) ++ [(op.1, op.2)])
    unfold cachePut
    omega

/-! ## The dataset cache under concurrency (context.py lines 606-614)

`ServiceContext._get_dataset_entry` uses a check-then-lock pattern: the
membership test `if ds_id not in self._dataset_cache` runs without the
lock; on a miss the thread takes `self._lock` (an RLock), constructs the
entry via `_create_dataset_entry` and inserts it via `_set_dataset_entry`,
and finally returns `self._dataset_cache[ds_id]`.  The interleavings of two
request threads calling `get_ml_dataset` for the same unseen `ds_id` are
modelled as a transition system whose atomic steps are the statements of
`_get_dataset_entry`; MultiLevelDataset instances are numbered by creation
order, so distinct numbers are distinct instances. -/

/-- Program counter of a thread in `_get_dataset_entry`: the lockless
membership test, lock acquisition, the `_create_dataset_entry` call, the
`_set_dataset_entry` insert plus lock release, the final cache read of the
return statement, and completion. -/
inductive TPC where
  | start
  | acquire
  | construct
  | insertRelease
  | readRet
  | done
  deriving DecidableEq, Repr

structure CacheThread where
  pc : TPC
  res : Option Nat
  mine : Option Nat
  deriving DecidableEq, Repr

/-- Shared state: the `_dataset_cache` entry for the one `ds_id` (an
instance number or absent), the holder of `self._lock`, the next fresh
instance number, the count of `_create_dataset_entry` constructions run,
and the two threads. -/
structure MLCacheState where
  cache : Option Nat
  lockBy : Option Bool
  nextId : Nat
  constructions : Nat
  th0 : CacheThread
  th1 : CacheThread
  deriving DecidableEq, Repr

def getTh (s : MLCacheState) (t : Bool) : CacheThread :=
  match t with
  | false => s.th0
  | true => s.th1

def setTh (s : MLCacheState) (t : Bool) (c : CacheThread) : MLCacheState :=
  match t with
  | false => { s with th0 := c }
  | true => { s with th1 := c }

/-- One atomic step of thread `t` in `_get_dataset_entry`.  A thread at
`acquire` while the lock is held by the other thread is blocked (the step
is a no-op).  After acquiring the lock the thread constructs
unconditionally — the source does not re-check the cache under the lock. -/
def mlStep (s : MLCacheState) (t : Bool) : MLCacheState :=
  match (getTh s t).pc with
  | TPC.start =>
    match s.cache with
    | some _ => setTh s t { getTh s t with pc := TPC.readRet }
    | none => setTh s t { getTh s t with pc := TPC.acquire }
  | TPC.acquire =>
    match s.lockBy with
    | none =>
      { setTh s t { getTh s t with pc := TPC.construct } with lockBy := some t }
    | some _ => s
  | TPC.construct =>
    { setTh s t
        { getTh s t with
          pc := TPC.insertRelease,
          mine := some s.nextId } with
      nextId := s.nextId + 1, constructions := s.constructions + 1 }
  | TPC.insertRelease =>
    { setTh s t { getTh s t with pc := TPC.readRet } with
      cache := (getTh s t).mine, lockBy := none }
  | TPC.readRet =>
    setTh s t { getTh s t with pc := TPC.done, res := s.cache }
  | TPC.done => s

def mlInit : MLCacheState :=
  { cache := none, lockBy := none, nextId := 0, constructions := 0,
    th0 := { pc := TPC.start, res := none, mine := none },
    th1 := { pc := TPC.start, res := none, mine := none } }

/-- Run a schedule (list of thread choices) from the initial state with the
entry absent from the cache. -/
def mlRun (sched : List Bool) : MLCacheState :=
  sched.foldl mlStep mlInit

/-- Thread `t` is in the middle of an entry construction (between the
`_create_dataset_entry` call and the insert). -/
def inConstruction (s : MLCacheState) (t : Bool) : Prop :=
  (getTh s t).pc = TPC.construct ∨ (getTh s t).pc = TPC.insertRelease

/-- The lock discipline invariant: a thread mid-construction holds the
lock. -/
def mlInv (s : MLCacheState) : Prop :=
  (s.th0.pc = TPC.construct ∨ s.th0.pc = TPC.insertRelease →
    s.lockBy = some false)
  ∧ (s.th1.pc = TPC.construct ∨ s.th1.pc = TPC.insertRelease →
    s.lockBy = some true)

/-! ## The config setter (context.py lines 127-150) -/

/-- The `ServiceContext` state touched by the `config` setter.  Cached
MultiLevelDataset objects are numbered; `closed` records the instances on
which `close()` has been invoked.  `tileCache` is `none` when no tile cache
capacity was configured, and `dataStorePool` is `none` when no store pool
exists (both then skip their clear). -/
structure SvcState where
  config : List (String × String)
  datasetCache : List (String × Nat)
  imageCache : List (String × Nat)
  tileCache : Option (List (String × Nat))
  placeGroupCache : List (String × Nat)
  dataStorePool : Option (List String)
  datasetConfigs : Option (List String)
  closed : List Nat
  deriving DecidableEq, Repr

/-- Shallow embedding of the `config` setter (context.py lines 127-150),
run to completion: when the previous configuration is truthy (non-empty),
it closes every cached MultiLevelDataset, clears the dataset, image, tile
and place-group caches, removes all store configs from the pool, resets the
derived `_dataset_configs` cache, and finally assigns the new
configuration; otherwise it only assigns.  The `if cache:` guards of the
source are no-ops on the empty representations used here. -/
def config_setter (s : SvcState) (config : List (String × String)) :
    SvcState :=
  if s.config ≠ [] then
    { s with
      closed := s.closed ++ s.datasetCache.map Prod.snd,
      datasetCache := [],
      imageCache := [],
      tileCache := s.tileCache.map (fun _ => []),
      placeGroupCache := [],
      dataStorePool := s.dataStorePool.map (fun _ => []),
      datasetConfigs := none,
      config := config }
  else
    { s with config := config }

/-- The interleaving of the setter's statements with a lockless reader.
Cache contents are abstracted to entry counts; `datasetConfigsPresent`
models `self._dataset_configs is not None`. -/
structure CfgObsState where
  datasetN : Nat
  imageN : Nat
  tileN : Nat
  placeGroupN : Nat
  datasetConfigsPresent : Bool
  spc : Nat
  rpc : Nat
  obsConfigsPresent : Option Bool
  obsPlaceGroupsCleared : Option Bool
  deriving DecidableEq, Repr

/-- One atomic step: `false` advances the setter thread through the
statements of the `config` setter body (executed while holding
`self._lock`); `true` advances a reader thread that performs the two
lockless reads present in the source — `get_dataset_configs` reads
`self._dataset_configs` without the lock (context.py line 270), and
`get_dataset_place_groups` reads `self._place_group_cache` without the lock
(context.py line 700).  The lock does not constrain the reader because the
reader never takes it on these paths. -/
def cfgStep (s : CfgObsState) (t : Bool) : CfgObsState :=
  match t with
  | false =>
    match s.spc with
    | 0 => { s with spc := 1 }
    | 1 => { s with datasetN := 0, spc := 2 }
    | 2 => { s with imageN := 0, spc := 3 }
    | 3 => { s with tileN := 0, spc := 4 }
    | 4 => { s with placeGroupN := 0, spc := 5 }
    | 5 => { s with spc := 6 }
    | 6 => { s with datasetConfigsPresent := false, spc := 7 }
    | _ => s
  | true =>
    match s.rpc with
    | 0 =>
      { s with
        obsConfigsPresent := some s.datasetConfigsPresent,
        rpc := 1 }
    | 1 =>
      { s with
        obsPlaceGroupsCleared := some (s.placeGroupN == 0),
        rpc := 2 }
    | _ => s

/-- Initial state: a previous configuration is in effect with populated
caches and a populated derived-configuration cache. -/
def cfgInit : CfgObsState :=
  { datasetN := 1, imageN := 1, tileN := 1, placeGroupN := 1,
    datasetConfigsPresent := true, spc := 0, rpc := 0,
    obsConfigsPresent := none, obsPlaceGroupsCleared := none }

def cfgRun (sched : List Bool) : CfgObsState :=
  sched.foldl cfgStep cfgInit

/-- A concrete populated service context state for witnesses: a previous
configuration in effect, one cached dataset, populated caches and store
pool. -/
def svcDemo : SvcState :=
  { config := [("Datasets", "old")],
    datasetCache := [("demo", 0)],
    imageCache := [("demo-img", 7)],
    tileCache := some [("tile", 3)],
    placeGroupCache := [("pg", 5)],
    dataStorePool := some ["s3_1"],
    datasetConfigs := some ["demo"],
    closed := [] }

/-- The spec's downscaling example: a 4x4 source raster with values 0..15
row-major. -/
def demoDown4x4 : Raster :=
  [[some 0, some 1, some 2, some 3],
   [some 4, some 5, some 6, some 7],
   [some 8, some 9, some 10, some 11],
   [some 12, some 13, some 14, some 15]]

/-- A 2x2 source raster for the upscaling example. -/
def demoUp2x2 : Raster := [[some 1, some 2], [some 3, some 4]]

/-- An 8x4 raster (with no-data holes) whose native grid equals
`GridMapping.regular (8, 4) (0, 0) 2`, for the identity example. -/
def demoId8x4 : Raster :=
  [[some 1, none, some 3, some 4, some 5, some 6, some 7, some 8],
   [some 9, some 10, none, some 12, some 13, some 14, some 15, some 16],
   [none, some 18, some 19, some 20, some 21, some 22, some 23, some 24],
   [some 25, some 26, some 27, none, some 29, some 30, some 31, some 32]]

/-! ## Resampling lemmas -/

theorem cellAt_eq (r : Raster) (i j : Nat) :
    cellAt r i j = (r[i]?.getD []).getD j none := by
  unfold cellAt
  cases h : r[i]? with
  | none => simp
  | some row => simp

theorem cellAt_grid (f : Nat → Nat → Option ℚ) (w h i j : Nat)
    (hi : i < h) (hj : j < w) :
    cellAt ((List.range h).map (fun i2 =>
      (List.range w).map (fun j2 => f i2 j2))) i j = f i j := by
  rw [cellAt_eq]
  simp [List.getElem?_map, List.getElem?_range, hi, hj,
    List.getD_eq_getElem?_getD]

theorem sumCount_go (cells : List (Option ℚ)) (a : ℚ) (n : Nat) :
    cells.foldl
      (fun acc c =>
        match c with
        | some v => (acc.1 + v, acc.2 + 1)
        | none => acc)
      (a, n)
    = (a + (cells.filterMap id).sum, n + (cells.filterMap id).length) := by
  induction cells generalizing a n with
  | nil => simp
  | cons c rest ih =>
    cases c with
    | none =>
      simp only [List.foldl_cons, List.filterMap_cons]
      rw [ih]
      simp
    | some v =>
      simp only [List.foldl_cons, List.filterMap_cons]
      rw [ih]
      simp only [id_eq, List.sum_cons, List.length_cons, Prod.mk.injEq]
      constructor
      · ring
      · omega

theorem sumCount_spec (cells : List (Option ℚ)) :
    sumCount cells = ((cells.filterMap id).sum, (cells.filterMap id).length) := by
  unfold sumCount
  simpa using sumCount_go cells 0 0

theorem downscaleCell_eq_mean (src : Raster) (k bi bj : Nat) :
    downscaleCell src k bi bj = meanOfValid (blockCells src k bi bj) := by
  unfold downscaleCell meanOfValid
  rw [sumCount_spec]
  by_cases h : (blockCells src k bi bj).filterMap id = []
  · rw [if_pos (by simp [h]), if_pos h]
  · have hlen : ((blockCells src k bi bj).filterMap id).length ≠ 0 := by
      simpa [List.length_eq_zero] using h
    rw [if_neg (by simpa using hlen), if_neg h]

theorem meanOfValid_eq_none_iff (cells : List (Option ℚ)) :
    meanOfValid cells = none ↔ ∀ c ∈ cells, c = none := by
  unfold meanOfValid
  by_cases h : cells.filterMap id = []
  · rw [if_pos h]
    constructor
    · intro _ c hc
      simpa using List.filterMap_eq_nil_iff.mp h c hc
    · intro _
      rfl
  · rw [if_neg h]
    constructor
    · intro hsome
      exact absurd hsome (by simp)
    · intro hall
      exact absurd
        (List.filterMap_eq_nil_iff.mpr (fun a ha => by simp [hall a ha])) h

theorem blockCells_length (src : Raster) (k bi bj : Nat) :
    (blockCells src k bi bj).length = k * k := by
  simp [blockCells, List.length_flatMap, Function.comp_def,
    List.map_const', List.sum_replicate, smul_eq_mul]

theorem resample_downscale_eq (src : Raster) (sgm tgm : GridMapping)
    (k : Nat) (hres : 0 < sgm.xyRes) (hk : 2 ≤ k)
    (hfac : tgm.xyRes = (k : ℚ) * sgm.xyRes)
    (hx : tgm.xMin = sgm.xMin) (hy : tgm.yMin = sgm.yMin) :
    resample_in_space src sgm tgm
      = (List.range tgm.height).map (fun i =>
          (List.range tgm.width).map (fun j =>
            downscaleCell src k (k * i) (k * j))) := by
  have hr : tgm.xyRes / sgm.xyRes = (k : ℚ) := by
    rw [hfac, mul_div_assoc, div_self hres.ne', mul_one]
  have hox : (tgm.xMin - sgm.xMin) / sgm.xyRes = 0 := by
    rw [hx, sub_self, zero_div]
  have hoy : (tgm.yMin - sgm.yMin) / sgm.xyRes = 0 := by
    rw [hy, sub_self, zero_div]
  have h1 : (1 : ℚ) < (k : ℚ) := by
    exact_mod_cast lt_of_lt_of_le one_lt_two hk
  unfold resample_in_space
  rw [hr, hox, hoy]
  rw [if_pos ⟨h1, by simp, by simp, by simp, by simp, by simp⟩]
  simp [Rat.num_natCast, Int.toNat_natCast]

theorem resample_nearest_eq (src : Raster) (sgm tgm : GridMapping)
    (h : ¬ 1 < tgm.xyRes / sgm.xyRes) :
    resample_in_space src sgm tgm
      = (List.range tgm.height).map (fun i =>
          (List.range tgm.width).map (fun j => nearestCell src sgm tgm i j)) := by
  unfold resample_in_space
  rw [if_neg (fun hc => h hc.1)]

theorem nearestCell_self (src : Raster) (sgm : GridMapping) (i j : Nat)
    (hres : 0 < sgm.xyRes) (hi : i < sgm.height) (hj : j < sgm.width) :
    nearestCell src sgm sgm i j = cellAt src i j := by
  have hpx : sourcePos sgm.xMin sgm.xyRes sgm.xMin sgm.xyRes j
      = (j : ℚ) + 1/2 := by
    unfold sourcePos
    rw [add_sub_cancel_left, mul_div_cancel_right₀ _ hres.ne']
  have hpy : sourcePos sgm.yMin sgm.xyRes sgm.yMin sgm.xyRes i
      = (i : ℚ) + 1/2 := by
    unfold sourcePos
    rw [add_sub_cancel_left, mul_div_cancel_right₀ _ hres.ne']
  have hwj : (j : ℚ) + 1/2 < (sgm.width : ℚ) := by
    have h2 : (j : ℚ) + 1 ≤ (sgm.width : ℚ) := by
      exact_mod_cast Nat.succ_le_of_lt hj
    linarith
  have hhi : (i : ℚ) + 1/2 < (sgm.height : ℚ) := by
    have h2 : (i : ℚ) + 1 ≤ (sgm.height : ℚ) := by
      exact_mod_cast Nat.succ_le_of_lt hi
    linarith
  have hin : insideSource sgm sgm i j := by
    unfold insideSource
    rw [hpx, hpy]
    exact ⟨by positivity, hwj, by positivity, hhi⟩
  have hfj : Int.floor ((j : ℚ) + 1/2) = (j : ℤ) := by
    rw [Int.floor_eq_iff]
    constructor
    · push_cast
      linarith
    · push_cast
      linarith
  have hfi : Int.floor ((i : ℚ) + 1/2) = (i : ℤ) := by
    rw [Int.floor_eq_iff]
    constructor
    · push_cast
      linarith
    · push_cast
      linarith
  unfold nearestCell
  rw [if_pos hin, hpx, hpy, hfi, hfj, Int.toNat_natCast, Int.toNat_natCast]

theorem resample_id_main (src : Raster) (sgm : GridMapping)
    (hres : 0 < sgm.xyRes) (hlen : src.length = sgm.height)
    (hrow : ∀ row ∈ src, row.length = sgm.width) :
    resample_in_space src sgm sgm = src := by
  rw [resample_nearest_eq src sgm sgm
    (by rw [div_self hres.ne']; exact lt_irrefl 1)]
  apply List.ext_getElem
  · simp [hlen]
  · intro i h1 h2
    simp only [List.getElem_map, List.getElem_range]
    have hi : i < sgm.height := by simpa using h1
    have hrowlen : src[i].length = sgm.width :=
      hrow src[i] (List.getElem_mem h2)
    apply List.ext_getElem
    · simp [hrowlen]
    · intro j hj1 hj2
      simp only [List.getElem_map, List.getElem_range]
      have hj : j < sgm.width := by simpa using hj1
      rw [nearestCell_self src sgm i j hres hi hj, cellAt_eq,
        List.getElem?_eq_getElem h2]
      simp only [Option.getD_some]
      rw [List.getD_eq_getElem _ none hj2]

theorem downscale_mean_main (src : Raster) (sgm tgm : GridMapping)
    (k i j : Nat) (hres : 0 < sgm.xyRes) (hk : 2 ≤ k)
    (hfac : tgm.xyRes = (k : ℚ) * sgm.xyRes)
    (hx : tgm.xMin = sgm.xMin) (hy : tgm.yMin = sgm.yMin)
    (hi : i < tgm.height) (hj : j < tgm.width) :
    cellAt (resample_in_space src sgm tgm) i j
        = meanOfValid (blockCells src k (k * i) (k * j))
    ∧ (blockCells src k (k * i) (k * j)).length = k * k
    ∧ ((∀ c ∈ blockCells src k (k * i) (k * j), c = none) ↔
        cellAt (resample_in_space src sgm tgm) i j = none) := by
  have hcell : cellAt (resample_in_space src sgm tgm) i j
      = downscaleCell src k (k * i) (k * j) := by
    rw [resample_downscale_eq src sgm tgm k hres hk hfac hx hy]
    exact cellAt_grid _ tgm.width tgm.height i j hi hj
  refine ⟨?_, blockCells_length src k (k * i) (k * j), ?_⟩
  · rw [hcell, downscaleCell_eq_mean]
  · rw [hcell, downscaleCell_eq_mean]
    exact (meanOfValid_eq_none_iff _).symm

unseal Rat.mul Rat.inv Rat.add Rat.sub in
theorem downscale_demo_eval :
    resample_in_space demoDown4x4 (GridMapping.regular (4, 4) (0, 0) 1)
        (GridMapping.regular (2, 2) (0, 0) 2)
      = [[some (5/2), some (9/2)], [some (21/2), some (25/2)]] := by
  decide

theorem upscale_nearest_main (src : Raster) (sgm tgm : GridMapping)
    (i j : Nat) (hsres : 0 < sgm.xyRes) (hfiner : tgm.xyRes < sgm.xyRes)
    (hi : i < tgm.height) (hj : j < tgm.width) :
    cellAt (resample_in_space src sgm tgm) i j = nearestCell src sgm tgm i j
    ∧ (insideSource sgm tgm i j →
        cellAt (resample_in_space src sgm tgm) i j
          = cellAt src
              (Int.toNat (Int.floor
                (sourcePos sgm.yMin sgm.xyRes tgm.yMin tgm.xyRes i)))
              (Int.toNat (Int.floor
                (sourcePos sgm.xMin sgm.xyRes tgm.xMin tgm.xyRes j))))
    ∧ (¬ insideSource sgm tgm i j →
        cellAt (resample_in_space src sgm tgm) i j = none) := by
  have hlt : tgm.xyRes / sgm.xyRes < 1 := (div_lt_one hsres).mpr hfiner
  have hcell : cellAt (resample_in_space src sgm tgm) i j
      = nearestCell src sgm tgm i j := by
    rw [resample_nearest_eq src sgm tgm (by linarith)]
    exact cellAt_grid _ tgm.width tgm.height i j hi hj
  refine ⟨hcell, ?_, ?_⟩
  · intro hin
    rw [hcell]
    unfold nearestCell
    rw [if_pos hin]
  · intro hout
    rw [hcell]
    unfold nearestCell
    rw [if_neg hout]

unseal Rat.mul Rat.inv Rat.add Rat.sub in
theorem upscale_demo_eval :
    resample_in_space demoUp2x2 (GridMapping.regular (2, 2) (0, 0) 2)
        (GridMapping.regular (4, 4) (-1, -1) 1)
      = [[none, none, none, none],
         [none, some 1, some 1, some 2],
         [none, some 1, some 1, some 2],
         [none, some 3, some 3, some 4]] := by
  decide

/-! ## Theorems for claims C3, C4, C5 -/

/-- Claim C3: for every aligned downscaling by an integer factor `k`, each
output cell of `resample_in_space` is the arithmetic mean of its `k×k`
contributing source cells with no-data cells excluded, and it is no-data
exactly when all `k×k` contributing cells are no-data; in particular the
4×4 raster with values 0..15 row-major downscaled by 2 yields
`[[2.5, 4.5], [10.5, 12.5]]`. -/
theorem C3_downscale_mean :
    (∀ (src : Raster) (sgm tgm : GridMapping) (k i j : Nat),
      0 < sgm.xyRes → 2 ≤ k → tgm.xyRes = (k : ℚ) * sgm.xyRes →
      tgm.xMin = sgm.xMin → tgm.yMin = sgm.yMin →
      i < tgm.height → j < tgm.width →
      cellAt (resample_in_space src sgm tgm) i j
          = meanOfValid (blockCells src k (k * i) (k * j))
        ∧ (blockCells src k (k * i) (k * j)).length = k * k
        ∧ ((∀ c ∈ blockCells src k (k * i) (k * j), c = none) ↔
            cellAt (resample_in_space src sgm tgm) i j = none))
    ∧ resample_in_space demoDown4x4 (GridMapping.regular (4, 4) (0, 0) 1)
        (GridMapping.regular (2, 2) (0, 0) 2)
      = [[some (5/2), some (9/2)], [some (21/2), some (25/2)]] :=
  ⟨downscale_mean_main, downscale_demo_eval⟩

/-- Claim C3 witness: the general mean property instantiated at output cell
(0, 0) of the spec's 0..15 example. -/
theorem C3_downscale_mean_witness :
    cellAt (resample_in_space demoDown4x4 (GridMapping.regular (4, 4) (0, 0) 1)
        (GridMapping.regular (2, 2) (0, 0) 2)) 0 0
      = meanOfValid (blockCells demoDown4x4 2 (2 * 0) (2 * 0))
    ∧ (blockCells demoDown4x4 2 (2 * 0) (2 * 0)).length = 2 * 2
    ∧ ((∀ c ∈ blockCells demoDown4x4 2 (2 * 0) (2 * 0), c = none) ↔
        cellAt (resample_in_space demoDown4x4
          (GridMapping.regular (4, 4) (0, 0) 1)
          (GridMapping.regular (2, 2) (0, 0) 2)) 0 0 = none) :=
  C3_downscale_mean.1 demoDown4x4 (GridMapping.regular (4, 4) (0, 0) 1)
    (GridMapping.regular (2, 2) (0, 0) 2) 2 0 0
    (by norm_num [GridMapping.regular]) (by norm_num)
    (by norm_num [GridMapping.regular]) (by norm_num [GridMapping.regular])
    (by norm_num [GridMapping.regular]) (by norm_num [GridMapping.regular])
    (by norm_num [GridMapping.regular])

/-- Claim C4: resampling a dataset onto a target grid mapping equal to its
own native grid mapping is the identity — the result is bit-identical to
the source; in particular this holds at the grid
`GridMapping.regular (8, 4) (0, 0) 2`. -/
theorem C4_resample_identity :
    (∀ (src : Raster) (sgm : GridMapping),
      0 < sgm.xyRes → src.length = sgm.height →
      (∀ row ∈ src, row.length = sgm.width) →
      resample_in_space src sgm sgm = src)
    ∧ resample_in_space demoId8x4 (GridMapping.regular (8, 4) (0, 0) 2)
        (GridMapping.regular (8, 4) (0, 0) 2) = demoId8x4 :=
  ⟨resample_id_main,
   resample_id_main demoId8x4 (GridMapping.regular (8, 4) (0, 0) 2)
     (by norm_num [GridMapping.regular]) rfl (by decide)⟩

/-- Claim C4 witness: the identity property instantiated at the
`GridMapping.regular (8, 4) (0, 0) 2` example grid. -/
theorem C4_resample_identity_witness :
    resample_in_space demoId8x4 (GridMapping.regular (8, 4) (0, 0) 2)
      (GridMapping.regular (8, 4) (0, 0) 2) = demoId8x4 :=
  C4_resample_identity.1 demoId8x4 (GridMapping.regular (8, 4) (0, 0) 2)
    (by norm_num [GridMapping.regular]) rfl (by decide)

/-- Claim C5: for every upscaling (target resolution finer than source),
each output cell of `resample_in_space` whose center falls inside the
source domain takes the value of exactly its nearest enclosing source cell
(no blending), and each output cell outside the source domain is no-data,
never zero; the concrete 2×2-to-4×4 example shows the no-data border and
the duplicated (unblended) interior values. -/
theorem C5_upscale_nearest :
    (∀ (src : Raster) (sgm tgm : GridMapping) (i j : Nat),
      0 < sgm.xyRes → tgm.xyRes < sgm.xyRes →
      i < tgm.height → j < tgm.width →
      cellAt (resample_in_space src sgm tgm) i j = nearestCell src sgm tgm i j
      ∧ (insideSource sgm tgm i j →
          cellAt (resample_in_space src sgm tgm) i j
            = cellAt src
                (Int.toNat (Int.floor
                  (sourcePos sgm.yMin sgm.xyRes tgm.yMin tgm.xyRes i)))
                (Int.toNat (Int.floor
                  (sourcePos sgm.xMin sgm.xyRes tgm.xMin tgm.xyRes j))))
      ∧ (¬ insideSource sgm tgm i j →
          cellAt (resample_in_space src sgm tgm) i j = none))
    ∧ resample_in_space demoUp2x2 (GridMapping.regular (2, 2) (0, 0) 2)
        (GridMapping.regular (4, 4) (-1, -1) 1)
      = [[none, none, none, none],
         [none, some 1, some 1, some 2],
         [none, some 1, some 1, some 2],
         [none, some 3, some 3, some 4]] :=
  ⟨upscale_nearest_main, upscale_demo_eval⟩

/-- Claim C5 witness: the nearest-neighbor property instantiated at output
cell (1, 1) of the 2×2-to-4×4 example. -/
theorem C5_upscale_nearest_witness :
    cellAt (resample_in_space demoUp2x2 (GridMapping.regular (2, 2) (0, 0) 2)
        (GridMapping.regular (4, 4) (-1, -1) 1)) 1 1
      = nearestCell demoUp2x2 (GridMapping.regular (2, 2) (0, 0) 2)
          (GridMapping.regular (4, 4) (-1, -1) 1) 1 1
    ∧ (insideSource (GridMapping.regular (2, 2) (0, 0) 2)
          (GridMapping.regular (4, 4) (-1, -1) 1) 1 1 →
        cellAt (resample_in_space demoUp2x2
            (GridMapping.regular (2, 2) (0, 0) 2)
            (GridMapping.regular (4, 4) (-1, -1) 1)) 1 1
          = cellAt demoUp2x2
              (Int.toNat (Int.floor (sourcePos 0 2 (-1) 1 1)))
              (Int.toNat (Int.floor (sourcePos 0 2 (-1) 1 1))))
    ∧ (¬ insideSource (GridMapping.regular (2, 2) (0, 0) 2)
          (GridMapping.regular (4, 4) (-1, -1) 1) 1 1 →
        cellAt (resample_in_space demoUp2x2
            (GridMapping.regular (2, 2) (0, 0) 2)
            (GridMapping.regular (4, 4) (-1, -1) 1)) 1 1 = none) :=
  C5_upscale_nearest.1 demoUp2x2 (GridMapping.regular (2, 2) (0, 0) 2)
    (GridMapping.regular (4, 4) (-1, -1) 1) 1 1
    (by norm_num [GridMapping.regular]) (by norm_num [GridMapping.regular])
    (by norm_num [GridMapping.regular]) (by norm_num [GridMapping.regular])

/-! ## Theorems for claims C1 and C2 -/

theorem mlInv_init : mlInv mlInit := by
  constructor <;> · intro h; rcases h with h | h <;> simp [mlInit] at h

theorem mlStep_inv (s : MLCacheState) (t : Bool) (h : mlInv s) :
    mlInv (mlStep s t) := by
  obtain ⟨h0, h1⟩ := h
  cases t with
  | false =>
    cases hpc : s.th0.pc with
    | start =>
      cases hc : s.cache with
      | none =>
        constructor
        · intro hh
          simp [mlStep, getTh, setTh, hpc, hc] at hh
        · intro hh
          simp [mlStep, getTh, setTh, hpc, hc] at hh ⊢
          exact h1 hh
      | some v =>
        constructor
        · intro hh
          simp [mlStep, getTh, setTh, hpc, hc] at hh
        · intro hh
          simp [mlStep, getTh, setTh, hpc, hc] at hh ⊢
          exact h1 hh
    | acquire =>
      cases hl : s.lockBy with
      | none =>
        constructor
        · intro _
          simp [mlStep, getTh, setTh, hpc, hl]
        · intro hh
          simp [mlStep, getTh, setTh, hpc, hl] at hh ⊢
          have h2 := h1 hh
          rw [hl] at h2
          exact absurd h2 (by simp)
      | some b =>
        have hs : mlStep s false = s := by simp [mlStep, getTh, hpc, hl]
        rw [hs]
        exact ⟨h0, h1⟩
    | construct =>
      constructor
      · intro _
        simp [mlStep, getTh, setTh, hpc]
        exact h0 (Or.inl hpc)
      · intro hh
        simp [mlStep, getTh, setTh, hpc] at hh ⊢
        exact h1 hh
    | insertRelease =>
      constructor
      · intro hh
        simp [mlStep, getTh, setTh, hpc] at hh
      · intro hh
        simp [mlStep, getTh, setTh, hpc] at hh ⊢
        have ha := h0 (Or.inr hpc)
        have hb := h1 hh
        rw [ha] at hb
        simp at hb
    | readRet =>
      constructor
      · intro hh
        simp [mlStep, getTh, setTh, hpc] at hh
      · intro hh
        simp [mlStep, getTh, setTh, hpc] at hh ⊢
        exact h1 hh
    | done =>
      have hs : mlStep s false = s := by simp [mlStep, getTh, hpc]
      rw [hs]
      exact ⟨h0, h1⟩
  | true =>
    cases hpc : s.th1.pc with
    | start =>
      cases hc : s.cache with
      | none =>
        constructor
        · intro hh
          simp [mlStep, getTh, setTh, hpc, hc] at hh ⊢
          exact h0 hh
        · intro hh
          simp [mlStep, getTh, setTh, hpc, hc] at hh
      | some v =>
        constructor
        · intro hh
          simp [mlStep, getTh, setTh, hpc, hc] at hh ⊢
          exact h0 hh
        · intro hh
          simp [mlStep, getTh, setTh, hpc, hc] at hh
    | acquire =>
      cases hl : s.lockBy with
      | none =>
        constructor
        · intro hh
          simp [mlStep, getTh, setTh, hpc, hl] at hh ⊢
          have h2 := h0 hh
          rw [hl] at h2
          exact absurd h2 (by simp)
        · intro _
          simp [mlStep, getTh, setTh, hpc, hl]
      | some b =>
        have hs : mlStep s true = s := by simp [mlStep, getTh, hpc, hl]
        rw [hs]
        exact ⟨h0, h1⟩
    | construct =>
      constructor
      · intro hh
        simp [mlStep, getTh, setTh, hpc] at hh ⊢
        exact h0 hh
      · intro _
        simp [mlStep, getTh, setTh, hpc]
        exact h1 (Or.inl hpc)
    | insertRelease =>
      constructor
      · intro hh
        simp [mlStep, getTh, setTh, hpc] at hh ⊢
        have ha := h1 (Or.inr hpc)
        have hb := h0 hh
        rw [ha] at hb
        simp at hb
      · intro hh
        simp [mlStep, getTh, setTh, hpc] at hh
    | readRet =>
      constructor
      · intro hh
        simp [mlStep, getTh, setTh, hpc] at hh ⊢
        exact h0 hh
      · intro hh
        simp [mlStep, getTh, setTh, hpc] at hh
    | done =>
      have hs : mlStep s true = s := by simp [mlStep, getTh, hpc]
      rw [hs]
      exact ⟨h0, h1⟩

theorem mlRun_inv (sched : List Bool) : mlInv (mlRun sched) := by
  have main : ∀ (l : List Bool) (s : MLCacheState),
      mlInv s → mlInv (l.foldl mlStep s) := by
    intro l
    induction l with
    | nil =>
      intro s hs
      simpa using hs
    | cons t rest ih =>
      intro s hs
      simpa using ih (mlStep s t) (mlStep_inv s t hs)
  exact main sched mlInit mlInv_init

/-- Claim C1 (amended): for two concurrent callers of `get_ml_dataset` on
an unseen `ds_id`, at most one construction is in progress at any time (the
lock serializes `_create_dataset_entry` and the insert), under every
interleaving of the threads' atomic steps. -/
theorem C1_construction_serialized (sched : List Bool) :
    ¬ (inConstruction (mlRun sched) false ∧ inConstruction (mlRun sched) true) := by
  intro hboth
  obtain ⟨hf, ht⟩ := hboth
  have h := mlRun_inv sched
  have e0 := h.1 hf
  have e1 := h.2 ht
  rw [e0] at e1
  simp at e1

/-- Claim C1 counterexample: an interleaving in which both threads pass the
lockless `if ds_id not in self._dataset_cache` test before either takes the
lock.  Both threads then run `_create_dataset_entry` (two constructions,
serialized one after the other), and the two callers return different
MultiLevelDataset instances — refuting "exactly one construction and all
callers observe the same instance". -/
theorem C1_counterexample :
    (mlRun [false, true, false, false, false, false,
        true, true, true, true]).constructions = 2
    ∧ (mlRun [false, true, false, false, false, false,
        true, true, true, true]).th0.pc = TPC.done
    ∧ (mlRun [false, true, false, false, false, false,
        true, true, true, true]).th1.pc = TPC.done
    ∧ (mlRun [false, true, false, false, false, false,
        true, true, true, true]).th0.res = some 0
    ∧ (mlRun [false, true, false, false, false, false,
        true, true, true, true]).th1.res = some 1
    ∧ (mlRun [false, true, false, false, false, false,
        true, true, true, true]).th0.res
      ≠ (mlRun [false, true, false, false, false, false,
        true, true, true, true]).th1.res := by
  decide

/-- Claim C2 (amended): when a previous non-empty configuration is in
effect, the completed `config` setter leaves every previously cached
MultiLevelDataset closed, the dataset, image, tile and place-group caches
and the derived `_dataset_configs` cache empty, the store pool without
store configs, and the new configuration assigned. -/
theorem C2_config_setter_clears (s : SvcState)
    (config : List (String × String)) (hprev : s.config ≠ []) :
    (config_setter s config).datasetCache = []
    ∧ (config_setter s config).imageCache = []
    ∧ (∀ tc, s.tileCache = some tc →
        (config_setter s config).tileCache = some [])
    ∧ (config_setter s config).placeGroupCache = []
    ∧ (config_setter s config).datasetConfigs = none
    ∧ (∀ p, s.dataStorePool = some p →
        (config_setter s config).dataStorePool = some [])
    ∧ (config_setter s config).config = config
    ∧ (∀ kv ∈ s.datasetCache, kv.2 ∈ (config_setter s config).closed) := by
  unfold config_setter
  rw [if_pos hprev]
  refine ⟨rfl, rfl, ?_, rfl, rfl, ?_, rfl, ?_⟩
  · intro tc htc
    simp [htc]
  · intro p hp
    simp [hp]
  · intro kv hkv
    simp only [List.mem_append]
    exact Or.inr (List.mem_map_of_mem Prod.snd hkv)

/-- Claim C2 witness: the setter applied to a concrete populated context. -/
theorem C2_config_setter_clears_witness :
    (config_setter svcDemo [("Datasets", "new")]).datasetCache = []
    ∧ (∀ kv ∈ svcDemo.datasetCache,
        kv.2 ∈ (config_setter svcDemo [("Datasets", "new")]).closed) :=
  ⟨(C2_config_setter_clears svcDemo [("Datasets", "new")] (by decide)).1,
   (C2_config_setter_clears svcDemo [("Datasets", "new")]
     (by decide)).2.2.2.2.2.2.2⟩

/-- Claim C2 counterexample: the setter thread executes the close and all
four cache clears (its first five statements) but has not yet reset the
derived `_dataset_configs` cache; a reader thread then performs the two
lockless reads present in the source (`self._dataset_configs` at
context.py line 270, `self._place_group_cache` at line 700) and observes
the derived-configuration cache still populated while the place-group
cache is already cleared — a state in which only some caches are
cleared. -/
theorem C2_counterexample :
    (cfgRun [false, false, false, false, false, true, true]).obsConfigsPresent
        = some true
    ∧ (cfgRun [false, false, false, false, false, true,
        true]).obsPlaceGroupsCleared = some true
    ∧ (cfgRun [false, false, false, false, false, true, true]).placeGroupN
        = 0
    ∧ (cfgRun [false, false, false, false, false, true,
        true]).datasetConfigsPresent = true := by
  decide

/-! ## Theorems for claims C7, C8, C9, C10 -/

theorem head?_if_slash (q : Str) :
    (if q.head? = some slash then q else slash :: q).head? = some slash := by
  by_cases h : q.head? = some slash
  · simp [h]
  · simp [h]

theorem strip_last_slash_head (p4 : Str) (h : p4.head? = some slash) :
    (if p4.getLast? = some slash then p4.dropLast else p4) = [] ∨
    (if p4.getLast? = some slash then p4.dropLast else p4).head? = some slash := by
  obtain ⟨t, rfl⟩ : ∃ t, p4 = slash :: t := by
    cases p4 with
    | nil => simp at h
    | cons a t =>
      simp only [List.head?_cons, Option.some.injEq] at h
      exact ⟨t, by rw [h]⟩
  cases t with
  | nil => simp
  | cons a t2 =>
    by_cases hl : (slash :: a :: t2).getLast? = some slash
    · right
      rw [if_pos hl]
      simp [List.dropLast]
    · right
      rw [if_neg hl]
      rfl

/-- Claim C9 counterexample: `normalize_prefix` applied to the five-slash
string returns the single-slash string, which is neither empty nor a string
that starts with a slash without also ending with one.  (The two
`'//' -> '/'` passes collapse five slashes only down to two, and the final
trailing-slash strip then leaves a bare slash.) -/
theorem C9_counterexample :
    normalize_prefix ['0'] (some [slash, slash, slash, slash, slash])
        = [slash] ∧
    ¬ (([slash] : Str) = [] ∨
       (([slash] : Str).head? = some slash ∧
        ([slash] : Str).getLast? ≠ some slash)) := by
  decide

/-- Claim C9 (amended): for every version string and every input (string or
`None`), `normalize_prefix` returns either the empty string or a string that
starts with a slash (but possibly also ends with one); `None` and the empty
string map to the empty string, and so does any input whose placeholder
substitution followed by the two `'//' -> '/'` passes equals the single
slash. -/
theorem C9_normalize_prefix_amended (version : Str) (pfx : Option Str) :
    ( normalize_prefix version pfx = [] ∨
      ( normalize_prefix version pfx).head? = some slash)
    ∧ normalize_prefix version none = []
    ∧ normalize_prefix version (some []) = []
    ∧ (∀ p : Str, p ≠ [] →
        pyreplace [slash, slash] [slash]
          (pyreplace [slash, slash] [slash]
            (pyreplace dollarVersion version
              (pyreplace dollarName xcubeName p))) = [slash] →
        normalize_prefix version (some p) = []) := by
  refine ⟨?_, rfl, rfl, ?_⟩
  · cases pfx with
    | none => exact Or.inl rfl
    | some p =>
      by_cases hp : p = []
      · exact Or.inl (by simp [ normalize_prefix, hp])
      · simp only [ normalize_prefix, if_neg hp]
        by_cases h1 : pyreplace [slash, slash] [slash]
            (pyreplace [slash, slash] [slash]
              (pyreplace dollarVersion version
                (pyreplace dollarName xcubeName p))) = [slash]
        · simp [h1]
        · simp only [if_neg h1]
          exact strip_last_slash_head _ (head?_if_slash _)
  · intro p hp hq
    simp [ normalize_prefix, hp, hq]

/-- Claim C7: `get_dataset_config` results in the resource-not-found error
exactly when no dataset configuration carries the requested identifier, and
any error it produces is of the not-found class
(`ServiceResourceNotFoundError`), never another class. -/
theorem C7_get_dataset_config_not_found (dataset_configs : List DatasetConfig)
    (ds_id : String) :
    ((∃ msg, get_dataset_config dataset_configs ds_id =
        Except.error (ServiceError.resourceNotFound msg)) ↔
      ∀ c ∈ dataset_configs, c.identifier ≠ ds_id)
    ∧ (∀ e, get_dataset_config dataset_configs ds_id = Except.error e →
        ∃ msg, e = ServiceError.resourceNotFound msg) := by
  constructor
  · unfold get_dataset_config
    cases h : find_dataset_config dataset_configs ds_id with
    | some c =>
      simp only [reduceCtorEq, exists_const, false_iff]
      intro hall
      have hc := List.find?_some h
      have hmem := List.mem_of_find?_eq_some h
      exact hall c hmem (by simpa using hc)
    | none =>
      simp only [Except.error.injEq, ServiceError.resourceNotFound.injEq,
        exists_eq', true_iff]
      intro c hmem
      have := List.find?_eq_none.mp h c hmem
      simpa using this
  · intro e he
    unfold get_dataset_config at he
    cases h : find_dataset_config dataset_configs ds_id with
    | some c => rw [h] at he; cases he
    | none =>
      rw [h] at he
      exact ⟨_, (Except.error.injEq _ _).mp he |>.symm⟩

theorem firstMissingVar_eq_none (dataset : XDataset) (l : List String) :
    firstMissingVar dataset l = none ↔ ∀ v ∈ l, v ∈ dataset.varNames := by
  induction l with
  | nil => simp [firstMissingVar]
  | cons v rest ih =>
    by_cases hv : v ∈ dataset.varNames
    · simp [firstMissingVar, hv, ih]
    · simp [firstMissingVar, hv]

theorem firstMissingVar_eq_some (dataset : XDataset) (l : List String) :
    (∃ v, firstMissingVar dataset l = some v) ↔
      ∃ v ∈ l, v ∉ dataset.varNames := by
  induction l with
  | nil => simp [firstMissingVar]
  | cons v rest ih =>
    by_cases hv : v ∈ dataset.varNames
    · simpa [firstMissingVar, hv] using ih
    · simp [firstMissingVar, hv]

/-- Claim C8: for a resolved dataset, `get_dataset` results in the
variable-not-found error exactly when some expected variable name is absent
from the base dataset, any error it produces is of the not-found class, and
when all expected names are present it returns the base dataset unchanged. -/
theorem C8_get_dataset_missing_var (dataset : XDataset) (ds_id : String)
    (expected_var_names : List String) :
    ((∃ msg, get_dataset dataset ds_id expected_var_names =
        Except.error (ServiceError.resourceNotFound msg)) ↔
      ∃ v ∈ expected_var_names, v ∉ dataset.varNames)
    ∧ ((∀ v ∈ expected_var_names, v ∈ dataset.varNames) →
        get_dataset dataset ds_id expected_var_names = Except.ok dataset) := by
  constructor
  · unfold get_dataset
    cases h : firstMissingVar dataset expected_var_names with
    | some v =>
      simp only [Except.error.injEq, ServiceError.resourceNotFound.injEq,
        exists_eq', true_iff]
      exact (firstMissingVar_eq_some dataset expected_var_names).mp ⟨v, h⟩
    | none =>
      simp only [reduceCtorEq, exists_const, false_iff]
      intro hex
      obtain ⟨v, hv⟩ :=
        (firstMissingVar_eq_some dataset expected_var_names).mpr hex
      rw [h] at hv
      cases hv
  · intro hall
    unfold get_dataset
    rw [(firstMissingVar_eq_none dataset expected_var_names).mpr hall]

/-- Claim C8 witness: a concrete instantiation in which all expected
variable names are present. -/
theorem C8_get_dataset_missing_var_witness :
    get_dataset ⟨["CHL", "TSM"]⟩ "demo" ["CHL"] = Except.ok ⟨["CHL", "TSM"]⟩ :=
  (C8_get_dataset_missing_var ⟨["CHL", "TSM"]⟩ "demo" ["CHL"]).2 (by decide)

/-- Claim C10: whenever the data store pool is present and non-empty,
`get_dataset_configs_from_stores` performs the `all_dataset_configs.json`
file write as a side effect of the configuration lookup. -/
theorem C10_store_scan_writes_file (fnm : String → String → Bool)
    (data_store_pool : Option (List DataStoreRecord))
    (stores : List DataStoreRecord)
    (hpool : data_store_pool = some stores) (_hne : stores ≠ []) :
    Effect.fileWrite "all_dataset_configs.json" ∈
      (get_dataset_configs_from_stores fnm data_store_pool).2 := by
  subst hpool
  simp [get_dataset_configs_from_stores]

/-- Claim C6: for the tile cache with byte capacity `capacity` and eviction
threshold 0.75 below full capacity, after every sequence of insertions the
total size of the cached entries never exceeds the capacity, and eviction
always removes least-recently-used entries first: the retained entries form
a suffix of the recency-ordered entry list, so whatever is removed is a
prefix of it (the least recently used end). -/
theorem C6_tile_cache_capacity (capacity : Nat) (ops : List (String × Nat)) :
    totalSize (cacheRun capacity ops) ≤ capacity
    ∧ ∀ l : CacheEntries, (evictLRU capacity l).IsSuffix l := by
  constructor
  · exact cacheRun_le capacity ops [] (by simp [totalSize])
  · exact evictLRU_suffix capacity

/-- Claim C10 witness: a concrete one-store pool triggers the file write. -/
theorem C10_store_scan_writes_file_witness :
    Effect.fileWrite "all_dataset_configs.json" ∈
      (get_dataset_configs_from_stores (fun _ _ => true)
        (some [⟨"s3_1", ["cube.zarr"], []⟩])).2 :=
  C10_store_scan_writes_file (fun _ _ => true) _ [⟨"s3_1", ["cube.zarr"], []⟩]
    rfl (by decide)

end Xcube
